import Mathlib

/-!
Shallow embedding of the forecaster facade in
src/pyzoo/zoo/chronos/model/forecast/tcn_forecaster.py (class TCNForecaster).

Arrays are abstracted to their shapes plus an identity tag, since the facade
only ever inspects shapes and forwards the arrays themselves.  Each public
method is a function from the facade state and its arguments to a pair of a
result (an error raised locally, or a description of the single call
delegated to the collaborator) and the post-call facade state.  The
collaborator TCNPytorch lives outside these sources; only its readable
model_built flag is modelled, from the spec.
-/

/-- A numpy ndarray as the facade sees it: its shape (list of dimension
sizes, outermost first) and a tag distinguishing distinct array objects. -/
structure NDArray where
  shape : List Nat
  tag : Nat
deriving DecidableEq

/-- Modelled from the spec: the collaborator TCNPytorch is not among the
sources; per the spec it exposes a readable built flag that is false at
construction and becomes true only after a successful fit_eval or restore. -/
structure TCNPytorch where
  model_built : Bool
deriving DecidableEq

/-- The data_config dictionary of the facade (the ShapeConfig record). -/
structure DataConfig where
  past_seq_len : Int
  future_seq_len : Int
  input_feature_num : Int
  output_feature_num : Int
deriving DecidableEq

/-- The config dictionary of the facade (the TrainConfig record).  The
batch_size key is absent until the first fit call, hence an Option. -/
structure Config where
  lr : Rat
  loss : String
  num_channels : List Int
  kernel_size : Int
  optim : String
  dropout : Rat
  batch_size : Option Int
deriving DecidableEq

/-- Errors the facade raises locally: a failed shape assertion in
_check_data (field name, expected config value, actual dimension), an
IndexError from indexing a too-short shape tuple, or the RuntimeError
raised by the not-built gates. -/
inductive PyError where
  | shapeMismatch (field : String) (expected actual : Int)
  | indexError
  | runtimeError (msg : String)
deriving DecidableEq

deriving instance DecidableEq for Except

/-- One call delegated to the collaborator self.internal, with the exact
arguments the source passes. -/
inductive CollabCall where
  | fit_eval (data : NDArray × NDArray) (validation_data : NDArray × NDArray)
      (epochs : Int) (metric : String) (kwargs : Config)
  | predict (x : NDArray)
  | predict_with_onnx (x : NDArray) (dirname : Option String)
  | evaluate (x : NDArray) (y : NDArray) (metrics : List String)
      (multioutput : String)
  | evaluate_with_onnx (x : NDArray) (y : NDArray) (metrics : List String)
      (dirname : Option String) (multioutput : String)
  | save (checkpoint_file : String)
  | restore (checkpoint_file : String)
deriving DecidableEq

/-- The facade state: the owned collaborator, data_config and config. -/
structure TCNForecaster where
  internal : TCNPytorch
  data_config : DataConfig
  config : Config
deriving DecidableEq

/-- Names appearing in the shape assertion messages of _check_data. -/
def pastSeqLenField : String := "past_seq_len"

def futureSeqLenField : String := "future_seq_len"

def inputFeatureNumField : String := "input_feature_num"

def outputFeatureNumField : String := "output_feature_num"

/-- Message of the RuntimeError raised by predict and predict_with_onnx. -/
def predictNotBuiltMsg : String :=
  "You must call fit or restore first before calling predict!"

/-- Message of the RuntimeError raised by evaluate and evaluate_with_onnx. -/
def evaluateNotBuiltMsg : String :=
  "You must call fit or restore first before calling evaluate!"

/-- Message of the RuntimeError raised by save. -/
def saveNotBuiltMsg : String :=
  "You must call fit or restore first before calling save!"

/-- Python negative indexing a.shape[-k] for k ≥ 1: the k-th dimension from
the end, raising IndexError when the shape tuple is shorter than k. -/
def NDArray.shapeNeg (a : NDArray) (k : Nat) : Except PyError Nat :=
  match a.shape.reverse[k - 1]? with
  | some d => Except.ok d
  | none => Except.error PyError.indexError

/-- Embeds TCNForecaster.__init__: stores data_config and config and creates
the collaborator.  In the source the defaults are num_channels=[30]*8,
kernel_size=7, dropout=0.2, optimizer=Adam, loss=mse, lr=0.001; here all
arguments are passed explicitly.  Per the spec the freshly constructed
collaborator is unbuilt.  No validation of any argument is performed. -/
def TCNForecaster.construct (past_seq_len future_seq_len : Int)
    (input_feature_num output_feature_num : Int) (num_channels : List Int)
    (kernel_size : Int) (dropout : Rat) (optimizer : String) (loss : String)
    (lr : Rat) : TCNForecaster :=
  { internal := { model_built := false },
    data_config :=
      { past_seq_len := past_seq_len,
        future_seq_len := future_seq_len,
        input_feature_num := input_feature_num,
        output_feature_num := output_feature_num },
    config :=
      { lr := lr,
        loss := loss,
        num_channels := num_channels,
        kernel_size := kernel_size,
        optim := optimizer,
        dropout := dropout,
        batch_size := none } }

/-- Embeds TCNForecaster._check_data: four asserts, in source order
x.shape[-2] vs past_seq_len, y.shape[-2] vs future_seq_len, x.shape[-1] vs
input_feature_num, y.shape[-1] vs output_feature_num.  Each assert first
evaluates the shape index (IndexError on too-short shapes), then compares;
the first failing assert raises with its field name and the two values. -/
def TCNForecaster.check_data (self : TCNForecaster) (x y : NDArray) :
    Except PyError Unit :=
  match x.shapeNeg 2 with
  | Except.error e => Except.error e
  | Except.ok xm2 =>
    if self.data_config.past_seq_len = (xm2 : Int) then
      match y.shapeNeg 2 with
      | Except.error e => Except.error e
      | Except.ok ym2 =>
        if self.data_config.future_seq_len = (ym2 : Int) then
          match x.shapeNeg 1 with
          | Except.error e => Except.error e
          | Except.ok xm1 =>
            if self.data_config.input_feature_num = (xm1 : Int) then
              match y.shapeNeg 1 with
              | Except.error e => Except.error e
              | Except.ok ym1 =>
                if self.data_config.output_feature_num = (ym1 : Int) then
                  Except.ok ()
                else
                  Except.error (PyError.shapeMismatch outputFeatureNumField
                    self.data_config.output_feature_num (ym1 : Int))
            else
              Except.error (PyError.shapeMismatch inputFeatureNumField
                self.data_config.input_feature_num (xm1 : Int))
        else
          Except.error (PyError.shapeMismatch futureSeqLenField
            self.data_config.future_seq_len (ym2 : Int))
    else
      Except.error (PyError.shapeMismatch pastSeqLenField
        self.data_config.past_seq_len (xm2 : Int))

/-- Embeds TCNForecaster.fit: defaults validation_data to (x, y), writes
config[batch_size], runs _check_data (the raised error propagates but the
already-mutated state remains), then delegates fit_eval with data=(x, y),
validation_data, epochs, metric and the whole config spread as keyword
arguments, returning its result.  Per the spec a successful fit_eval leaves
the collaborator built. -/
def TCNForecaster.fit (self : TCNForecaster) (x y : NDArray)
    (validation_data : Option (NDArray × NDArray)) (epochs : Int)
    (metric : String) (batch_size : Int) :
    Except PyError CollabCall × TCNForecaster :=
  let vdata : NDArray × NDArray :=
    match validation_data with
    | none => (x, y)
    | some v => v
  let self1 : TCNForecaster :=
    { self with config := { self.config with batch_size := some batch_size } }
  match self1.check_data x y with
  | Except.error e => (Except.error e, self1)
  | Except.ok _ =>
    (Except.ok (CollabCall.fit_eval (x, y) vdata epochs metric self1.config),
      { self1 with internal := { model_built := true } })

/-- Embeds TCNForecaster.predict: raises RuntimeError when the collaborator
is not built, otherwise delegates predict(x) unchanged. -/
def TCNForecaster.predict (self : TCNForecaster) (x : NDArray) :
    Except PyError CollabCall × TCNForecaster :=
  if self.internal.model_built then
    (Except.ok (CollabCall.predict x), self)
  else
    (Except.error (PyError.runtimeError predictNotBuiltMsg), self)

/-- Embeds TCNForecaster.predict_with_onnx: same gate and message as
predict, then delegates predict_with_onnx(x, dirname). -/
def TCNForecaster.predict_with_onnx (self : TCNForecaster) (x : NDArray)
    (dirname : Option String) : Except PyError CollabCall × TCNForecaster :=
  if self.internal.model_built then
    (Except.ok (CollabCall.predict_with_onnx x dirname), self)
  else
    (Except.error (PyError.runtimeError predictNotBuiltMsg), self)

/-- Embeds TCNForecaster.evaluate: built gate, then delegates
evaluate(x, y, metrics, multioutput) unchanged. -/
def TCNForecaster.evaluate (self : TCNForecaster) (x y : NDArray)
    (metrics : List String) (multioutput : String) :
    Except PyError CollabCall × TCNForecaster :=
  if self.internal.model_built then
    (Except.ok (CollabCall.evaluate x y metrics multioutput), self)
  else
    (Except.error (PyError.runtimeError evaluateNotBuiltMsg), self)

/-- Embeds TCNForecaster.evaluate_with_onnx: built gate with the evaluate
message, then delegates evaluate_with_onnx. -/
def TCNForecaster.evaluate_with_onnx (self : TCNForecaster) (x y : NDArray)
    (metrics : List String) (dirname : Option String) (multioutput : String) :
    Except PyError CollabCall × TCNForecaster :=
  if self.internal.model_built then
    (Except.ok (CollabCall.evaluate_with_onnx x y metrics dirname multioutput),
      self)
  else
    (Except.error (PyError.runtimeError evaluateNotBuiltMsg), self)

/-- Embeds TCNForecaster.save: built gate, then delegates save. -/
def TCNForecaster.save (self : TCNForecaster) (checkpoint_file : String) :
    Except PyError CollabCall × TCNForecaster :=
  if self.internal.model_built then
    (Except.ok (CollabCall.save checkpoint_file), self)
  else
    (Except.error (PyError.runtimeError saveNotBuiltMsg), self)

/-- Embeds TCNForecaster.restore: no gate at all, delegates restore
unconditionally.  Per the spec a successful restore leaves the collaborator
built. -/
def TCNForecaster.restore (self : TCNForecaster) (checkpoint_file : String) :
    Except PyError CollabCall × TCNForecaster :=
  (Except.ok (CollabCall.restore checkpoint_file),
    { self with internal := { model_built := true } })

/-! Concrete sample data, following the example scenario of the spec:
ShapeConfig (24, 5, 1, 1), x of shape (10, 24, 1), y of shape (10, 5, 1). -/

def optimAdam : String := "Adam"

def lossMse : String := "mse"

def rawValues : String := "raw_values"

def ckptName : String := "ckpt"

/-- A freshly constructed sample facade with ShapeConfig (24, 5, 1, 1). -/
def sampleForecaster : TCNForecaster :=
  TCNForecaster.construct 24 5 1 1 [16, 16] 4 0 optimAdam lossMse 1

/-- A valid-shaped sample x, shape (10, 24, 1). -/
def sampleX : NDArray := { shape := [10, 24, 1], tag := 0 }

/-- A valid-shaped sample y, shape (10, 5, 1). -/
def sampleY : NDArray := { shape := [10, 5, 1], tag := 1 }

/-- A sample x with mismatching second-to-last dimension, shape (10, 23, 1). -/
def sampleXBadPast : NDArray := { shape := [10, 23, 1], tag := 2 }

/-! Helper lemmas shared by several claim proofs. -/

/-- An array whose shape has at least two trailing dimensions also has a
last dimension. -/
lemma shapeNeg_one_of_two (a : NDArray) (d : Nat)
    (h : a.shapeNeg 2 = Except.ok d) : ∃ e, a.shapeNeg 1 = Except.ok e := by
  unfold NDArray.shapeNeg at h ⊢
  cases h2 : a.shape.reverse[1]? with
  | none => rw [h2] at h; cases h
  | some v =>
    have hlen : 1 < a.shape.reverse.length := by
      have := List.getElem?_eq_some.mp h2
      exact this.1
    have h0 : a.shape.reverse[0]? = some (a.shape.reverse[0]) :=
      List.getElem?_eq_getElem (by omega)
    exact ⟨_, by rw [h0]⟩

/-- Characterisation of check_data when all four inspected dimensions
exist: the four comparisons run in source order (past_seq_len on x[-2],
future_seq_len on y[-2], input_feature_num on x[-1], output_feature_num on
y[-1]) and the first failing one produces the error. -/
lemma check_data_eq (self : TCNForecaster) (x y : NDArray)
    (xd2 yd2 xd1 yd1 : Nat)
    (hx2 : x.shapeNeg 2 = Except.ok xd2) (hy2 : y.shapeNeg 2 = Except.ok yd2)
    (hx1 : x.shapeNeg 1 = Except.ok xd1) (hy1 : y.shapeNeg 1 = Except.ok yd1) :
    self.check_data x y =
      if self.data_config.past_seq_len = (xd2 : Int) then
        if self.data_config.future_seq_len = (yd2 : Int) then
          if self.data_config.input_feature_num = (xd1 : Int) then
            if self.data_config.output_feature_num = (yd1 : Int) then
              Except.ok ()
            else
              Except.error (PyError.shapeMismatch outputFeatureNumField
                self.data_config.output_feature_num (yd1 : Int))
          else
            Except.error (PyError.shapeMismatch inputFeatureNumField
              self.data_config.input_feature_num (xd1 : Int))
        else
          Except.error (PyError.shapeMismatch futureSeqLenField
            self.data_config.future_seq_len (yd2 : Int))
      else
        Except.error (PyError.shapeMismatch pastSeqLenField
          self.data_config.past_seq_len (xd2 : Int)) := by
  simp only [TCNForecaster.check_data, hx2, hy2, hx1, hy1]

/-- The post-state of any fit call carries batch_size = the argument,
whether or not the shape check passed. -/
lemma fit_snd_batch_size (self : TCNForecaster) (x y : NDArray)
    (validation_data : Option (NDArray × NDArray)) (epochs : Int)
    (metric : String) (batch_size : Int) :
    ((self.fit x y validation_data epochs metric batch_size).2).config.batch_size
      = some batch_size := by
  simp only [TCNForecaster.fit]
  split <;> rfl

/-- C1: on a facade whose model has not been built by any fit or restore
(the collaborator built flag is false, as right after construction),
predict, evaluate and save each raise the not-built RuntimeError, leave the
state unchanged, and never delegate a call to the collaborator. -/
theorem notBuilt_gates_predict_evaluate_save (self : TCNForecaster)
    (h : self.internal.model_built = false) (x y : NDArray)
    (metrics : List String) (multioutput : String) (path : String) :
    self.predict x =
      (Except.error (PyError.runtimeError predictNotBuiltMsg), self) ∧
    self.evaluate x y metrics multioutput =
      (Except.error (PyError.runtimeError evaluateNotBuiltMsg), self) ∧
    self.save path =
      (Except.error (PyError.runtimeError saveNotBuiltMsg), self) ∧
    (∀ c, (self.predict x).1 ≠ Except.ok c) ∧
    (∀ c, (self.evaluate x y metrics multioutput).1 ≠ Except.ok c) ∧
    (∀ c, (self.save path).1 ≠ Except.ok c) := by
  simp [TCNForecaster.predict, TCNForecaster.evaluate, TCNForecaster.save, h]

/-- Witness for C1 at the freshly constructed sample facade. -/
theorem notBuilt_gates_predict_evaluate_save_witness :
    sampleForecaster.internal.model_built = false ∧
    sampleForecaster.predict sampleX =
      (Except.error (PyError.runtimeError predictNotBuiltMsg),
        sampleForecaster) ∧
    sampleForecaster.save ckptName =
      (Except.error (PyError.runtimeError saveNotBuiltMsg),
        sampleForecaster) :=
  ⟨rfl,
    (notBuilt_gates_predict_evaluate_save sampleForecaster rfl sampleX sampleY
      [lossMse] rawValues ckptName).1,
    (notBuilt_gates_predict_evaluate_save sampleForecaster rfl sampleX sampleY
      [lossMse] rawValues ckptName).2.2.1⟩

/-- C5: after every fit call with batch_size = b, the stored TrainConfig
has batch_size = b, overwriting whatever was there before (the equation
holds for every prior state, so the value reflects only the latest call). -/
theorem fit_overwrites_batch_size (self : TCNForecaster) (x y : NDArray)
    (validation_data : Option (NDArray × NDArray)) (epochs : Int)
    (metric : String) (batch_size : Int) :
    ((self.fit x y validation_data epochs metric batch_size).2).config.batch_size
      = some batch_size :=
  fit_snd_batch_size self x y validation_data epochs metric batch_size

/-- C6: restore has no built gate: it always succeeds, delegating restore
to the collaborator and leaving the model built, so a predict immediately
after restore delegates instead of raising the not-built error. -/
theorem restore_unconditional_then_predict (self : TCNForecaster)
    (checkpoint_file : String) (x : NDArray) :
    self.restore checkpoint_file =
      (Except.ok (CollabCall.restore checkpoint_file),
        { self with internal := { model_built := true } }) ∧
    ((self.restore checkpoint_file).2).internal.model_built = true ∧
    (((self.restore checkpoint_file).2).predict x).1 =
      Except.ok (CollabCall.predict x) :=
  ⟨rfl, rfl, rfl⟩

/-- C7: no public operation changes the four ShapeConfig fields stored in
data_config. -/
theorem data_config_immutable (self : TCNForecaster) (x y : NDArray)
    (validation_data : Option (NDArray × NDArray)) (epochs : Int)
    (metric : String) (batch_size : Int) (metrics : List String)
    (dirname : Option String) (multioutput : String) (path : String) :
    ((self.fit x y validation_data epochs metric batch_size).2).data_config
      = self.data_config ∧
    ((self.predict x).2).data_config = self.data_config ∧
    ((self.predict_with_onnx x dirname).2).data_config = self.data_config ∧
    ((self.evaluate x y metrics multioutput).2).data_config
      = self.data_config ∧
    ((self.evaluate_with_onnx x y metrics dirname multioutput).2).data_config
      = self.data_config ∧
    ((self.save path).2).data_config = self.data_config ∧
    ((self.restore path).2).data_config = self.data_config := by
  refine ⟨?_, ?_, ?_, ?_, ?_, ?_, ?_⟩ <;>
    simp only [TCNForecaster.fit, TCNForecaster.predict,
      TCNForecaster.predict_with_onnx, TCNForecaster.evaluate,
      TCNForecaster.evaluate_with_onnx, TCNForecaster.save,
      TCNForecaster.restore] <;>
    first
      | rfl
      | (split <;> rfl)

/-- C8: construction is total and performs no range validation: for every
combination of arguments (negative lengths, dropout outside the unit
interval included) it returns exactly the state that stores them, with an
unbuilt collaborator and no batch_size yet. -/
theorem construct_total_stores (p f i o : Int) (nc : List Int) (k : Int)
    (d : Rat) (opt l : String) (lr : Rat) :
    TCNForecaster.construct p f i o nc k d opt l lr =
      { internal := { model_built := false },
        data_config :=
          { past_seq_len := p, future_seq_len := f,
            input_feature_num := i, output_feature_num := o },
        config :=
          { lr := lr, loss := l, num_channels := nc, kernel_size := k,
            optim := opt, dropout := d, batch_size := none } } := rfl

/-- C2: whenever x has its trailing two dimensions and either the
second-to-last one differs from past_seq_len or the last one differs from
input_feature_num (y being any array with a second-to-last dimension), fit
raises a shape assertion error and the collaborator fit_eval is never
invoked. -/
theorem fit_x_shape_mismatch_raises (self : TCNForecaster) (x y : NDArray)
    (xd2 xd1 yd2 : Nat)
    (hx2 : x.shapeNeg 2 = Except.ok xd2) (hx1 : x.shapeNeg 1 = Except.ok xd1)
    (hy2 : y.shapeNeg 2 = Except.ok yd2)
    (hmis : self.data_config.past_seq_len ≠ (xd2 : Int) ∨
      self.data_config.input_feature_num ≠ (xd1 : Int))
    (validation_data : Option (NDArray × NDArray)) (epochs : Int)
    (metric : String) (batch_size : Int) :
    (∃ fname ex ac,
      (self.fit x y validation_data epochs metric batch_size).1 =
        Except.error (PyError.shapeMismatch fname ex ac)) ∧
    ∀ c, (self.fit x y validation_data epochs metric batch_size).1
      ≠ Except.ok c := by
  obtain ⟨yd1, hy1⟩ := shapeNeg_one_of_two y yd2 hy2
  have hcd := check_data_eq
    { self with config := { self.config with batch_size := some batch_size } }
    x y xd2 yd2 xd1 yd1 hx2 hy2 hx1 hy1
  simp only [TCNForecaster.fit]
  rw [hcd]
  split_ifs with h1 h2 h3 h4 <;>
    first
      | (exact absurd (Or.elim hmis (fun hm => absurd h1 hm)
          (fun hm => absurd h3 hm)) not_false)
      | exact ⟨⟨_, _, _, rfl⟩, fun c hc => by cases hc⟩

/-- Witness for C2: sample facade, x of shape (10, 23, 1) against
past_seq_len = 24. -/
theorem fit_x_shape_mismatch_raises_witness :
    sampleXBadPast.shapeNeg 2 = Except.ok 23 ∧
    (∃ fname ex ac,
      (sampleForecaster.fit sampleXBadPast sampleY none 1 lossMse 32).1 =
        Except.error (PyError.shapeMismatch fname ex ac)) :=
  ⟨rfl,
    (fit_x_shape_mismatch_raises sampleForecaster sampleXBadPast sampleY
      23 1 5 rfl rfl rfl (Or.inl (by decide)) none 1 lossMse 32).1⟩

/-- Facade for the C3 scenario, ShapeConfig (24, 5, 1, 1). -/
def c3Forecaster : TCNForecaster :=
  TCNForecaster.construct 24 5 1 1 [16, 16] 4 0 optimAdam lossMse 1

/-- x of shape (10, 24, 2): second-to-last matches, last mismatches. -/
def c3X : NDArray := { shape := [10, 24, 2], tag := 3 }

/-- y of shape (10, 4, 1): second-to-last mismatches. -/
def c3Y : NDArray := { shape := [10, 4, 1], tag := 4 }

/-- C3 counterexample: with ShapeConfig (24, 5, 1, 1), x of shape
(10, 24, 2) and y of shape (10, 4, 1), both the x last dimension and the y
second-to-last dimension mismatch.  The claimed order (x[-2], x[-1], y[-2],
y[-1]) predicts an input_feature_num error; the code raises the
future_seq_len error, because it checks y[-2] before x[-1]. -/
theorem check_data_order_counterexample :
    c3Forecaster.check_data c3X c3Y =
      Except.error (PyError.shapeMismatch futureSeqLenField 5 4) ∧
    c3Forecaster.check_data c3X c3Y ≠
      Except.error (PyError.shapeMismatch inputFeatureNumField 1 2) := by
  constructor
  · rfl
  · decide

/-- C3 amended: shape validation checks, in order, x[-2] against
past_seq_len, then y[-2] against future_seq_len, then x[-1] against
input_feature_num, then y[-1] against output_feature_num; the first failing
comparison in this order determines the field name and the expected/actual
pair in the raised error. -/
theorem check_data_order (self : TCNForecaster) (x y : NDArray)
    (xd2 yd2 xd1 yd1 : Nat)
    (hx2 : x.shapeNeg 2 = Except.ok xd2) (hy2 : y.shapeNeg 2 = Except.ok yd2)
    (hx1 : x.shapeNeg 1 = Except.ok xd1) (hy1 : y.shapeNeg 1 = Except.ok yd1) :
    self.check_data x y =
      if self.data_config.past_seq_len = (xd2 : Int) then
        if self.data_config.future_seq_len = (yd2 : Int) then
          if self.data_config.input_feature_num = (xd1 : Int) then
            if self.data_config.output_feature_num = (yd1 : Int) then
              Except.ok ()
            else
              Except.error (PyError.shapeMismatch outputFeatureNumField
                self.data_config.output_feature_num (yd1 : Int))
          else
            Except.error (PyError.shapeMismatch inputFeatureNumField
              self.data_config.input_feature_num (xd1 : Int))
        else
          Except.error (PyError.shapeMismatch futureSeqLenField
            self.data_config.future_seq_len (yd2 : Int))
      else
        Except.error (PyError.shapeMismatch pastSeqLenField
          self.data_config.past_seq_len (xd2 : Int)) :=
  check_data_eq self x y xd2 yd2 xd1 yd1 hx2 hy2 hx1 hy1

/-- Witness for the amended C3 at the counterexample scenario: the
characterisation instantiates there and evaluates to the future_seq_len
error. -/
theorem check_data_order_witness :
    c3X.shapeNeg 2 = Except.ok 24 ∧
    c3Forecaster.check_data c3X c3Y =
      Except.error (PyError.shapeMismatch futureSeqLenField 5 4) :=
  ⟨rfl, by
    rw [check_data_order c3Forecaster c3X c3Y 24 4 2 1 rfl rfl rfl rfl]
    decide⟩

/-- C4: on valid-shaped data, fit with validation_data = None delegates
fit_eval with data = (x, y), validation_data = (x, y) itself, the given
epochs and metric, and the whole config (batch_size included) as keyword
arguments, and hands back the fit_eval result unchanged. -/
theorem fit_valid_self_validation_delegates (self : TCNForecaster)
    (x y : NDArray) (xd2 yd2 xd1 yd1 : Nat)
    (hx2 : x.shapeNeg 2 = Except.ok xd2) (hy2 : y.shapeNeg 2 = Except.ok yd2)
    (hx1 : x.shapeNeg 1 = Except.ok xd1) (hy1 : y.shapeNeg 1 = Except.ok yd1)
    (hp : self.data_config.past_seq_len = (xd2 : Int))
    (hf : self.data_config.future_seq_len = (yd2 : Int))
    (hi : self.data_config.input_feature_num = (xd1 : Int))
    (ho : self.data_config.output_feature_num = (yd1 : Int))
    (epochs : Int) (metric : String) (batch_size : Int) :
    (self.fit x y none epochs metric batch_size).1 =
      Except.ok (CollabCall.fit_eval (x, y) (x, y) epochs metric
        { self.config with batch_size := some batch_size }) := by
  have hcd := check_data_eq
    { self with config := { self.config with batch_size := some batch_size } }
    x y xd2 yd2 xd1 yd1 hx2 hy2 hx1 hy1
  simp only [TCNForecaster.fit]
  rw [hcd]
  simp [hp, hf, hi, ho]

/-- Witness for C4 at the sample facade with matching shapes. -/
theorem fit_valid_self_validation_delegates_witness :
    sampleX.shapeNeg 2 = Except.ok 24 ∧
    (sampleForecaster.fit sampleX sampleY none 1 lossMse 32).1 =
      Except.ok (CollabCall.fit_eval (sampleX, sampleY) (sampleX, sampleY)
        1 lossMse
        { sampleForecaster.config with batch_size := some 32 }) :=
  ⟨rfl,
    fit_valid_self_validation_delegates sampleForecaster sampleX sampleY
      24 5 1 1 rfl rfl rfl rfl rfl rfl rfl rfl 1 lossMse 32⟩

/-- C9: fit is not atomic on a shape error: whenever fit raises, the
post-state already carries the new batch_size, even though no collaborator
call was made. -/
theorem fit_mutates_batch_size_before_check (self : TCNForecaster)
    (x y : NDArray) (validation_data : Option (NDArray × NDArray))
    (epochs : Int) (metric : String) (batch_size : Int) (e : PyError)
    (h : (self.fit x y validation_data epochs metric batch_size).1 =
      Except.error e) :
    ((self.fit x y validation_data epochs metric batch_size).2).config.batch_size
      = some batch_size ∧
    ∀ c, (self.fit x y validation_data epochs metric batch_size).1
      ≠ Except.ok c := by
  refine ⟨fit_snd_batch_size self x y validation_data epochs metric batch_size,
    fun c hc => ?_⟩
  rw [h] at hc
  cases hc

/-- Witness for C9: the sample x with bad past_seq_len makes fit raise the
past_seq_len assertion, yet batch_size is already overwritten to 64. -/
theorem fit_mutates_batch_size_before_check_witness :
    (sampleForecaster.fit sampleXBadPast sampleY none 1 lossMse 64).1 =
      Except.error (PyError.shapeMismatch pastSeqLenField 24 23) ∧
    ((sampleForecaster.fit sampleXBadPast sampleY none 1 lossMse 64).2).config.batch_size
      = some 64 :=
  ⟨rfl,
    (fit_mutates_batch_size_before_check sampleForecaster sampleXBadPast
      sampleY none 1 lossMse 64
      (PyError.shapeMismatch pastSeqLenField 24 23) rfl).1⟩

/-- Shape access on an array whose shape is anything followed by two
trailing dimensions: shape[-2] and shape[-1] are those two dimensions. -/
lemma shapeNeg_append_two (l : List Nat) (a b t : Nat) :
    NDArray.shapeNeg { shape := l ++ [a, b], tag := t } 2 = Except.ok a ∧
    NDArray.shapeNeg { shape := l ++ [a, b], tag := t } 1 = Except.ok b := by
  unfold NDArray.shapeNeg
  simp [List.reverse_append]

/-- C10: the shape check looks only at the last two dimensions: any arrays
of any rank at least 2 whose two trailing dimensions match the config pass
check_data, whatever their leading dimensions are. -/
theorem check_data_ignores_leading_dims (self : TCNForecaster)
    (xpre ypre : List Nat) (p i f o : Nat) (xt yt : Nat)
    (hp : self.data_config.past_seq_len = (p : Int))
    (hf : self.data_config.future_seq_len = (f : Int))
    (hi : self.data_config.input_feature_num = (i : Int))
    (ho : self.data_config.output_feature_num = (o : Int)) :
    self.check_data { shape := xpre ++ [p, i], tag := xt }
      { shape := ypre ++ [f, o], tag := yt } = Except.ok () := by
  obtain ⟨hx2, hx1⟩ := shapeNeg_append_two xpre p i xt
  obtain ⟨hy2, hy1⟩ := shapeNeg_append_two ypre f o yt
  rw [check_data_eq self _ _ p f i o hx2 hy2 hx1 hy1]
  simp [hp, hf, hi, ho]

/-- Witness for C10: a rank-4 x and a rank-3 y with matching trailing
dimensions pass the check on the sample facade. -/
theorem check_data_ignores_leading_dims_witness :
    sampleForecaster.check_data { shape := [7, 3] ++ [24, 1], tag := 6 }
      { shape := [2] ++ [5, 1], tag := 7 } = Except.ok () :=
  check_data_ignores_leading_dims sampleForecaster [7, 3] [2] 24 1 5 1 6 7
    rfl rfl rfl rfl
